import Mathlib

/-!
Shallow embedding of the beepink-naural audio synthesis core.

The repository drives Web Audio API nodes.  We model each `AudioParam`
as its current target value together with how it was last written:
`.value = x` (a direct, unsmoothed set) or `setTargetAtTime(x, t, tc)`
(an exponential-approach ramp with time constant `tc`).  Node graphs
are modelled as records of the parameters the claims inspect; the
sound-producing nodes that the generators create on `start` and destroy
on `stop` are `Option`-valued fields.  JavaScript numbers are modelled
as exact rationals.
-/

/-- How an AudioParam was last written: a direct `.value =` assignment or a
`setTargetAtTime` smoothing ramp with the given time constant. -/
inductive SetMode where
  | direct : SetMode
  | target : ℚ → SetMode
  deriving DecidableEq, Repr

/-- An AudioParam: its current target value and the write mode that set it. -/
structure AudioParam where
  value : ℚ
  mode : SetMode
  deriving DecidableEq, Repr

/-- `param.value = v` in the source: a direct, unsmoothed assignment. -/
def AudioParam.setValue (_ : AudioParam) (v : ℚ) : AudioParam :=
  ⟨v, SetMode.direct⟩

/-- `param.setTargetAtTime(v, currentTime, tc)` in the source: an
exponential-approach ramp toward `v` with time constant `tc`. -/
def AudioParam.setTargetAtTime (_ : AudioParam) (v tc : ℚ) : AudioParam :=
  ⟨v, SetMode.target tc⟩

/-! ## Pink-noise buffer generation (PinkNoiseGenerator.start, lines 94-118)

The source fills a mono buffer of `2 * sampleRate` samples with Paul
Kellet's refined pink-noise filter, driven by white-noise draws
`Math.random() * 2 - 1`.  We parametrise the generation by the sequence
of white draws `whites : ℕ → ℚ`. -/

/-- The seven filter state variables `b0 .. b6` of Kellet's method. -/
structure KelletState where
  b0 : ℚ
  b1 : ℚ
  b2 : ℚ
  b3 : ℚ
  b4 : ℚ
  b5 : ℚ
  b6 : ℚ
  deriving DecidableEq, Repr

/-- All state variables start at 0 (`let b0 = 0, ..., b6 = 0`). -/
def KelletState.init : KelletState := ⟨0, 0, 0, 0, 0, 0, 0⟩

/-- One iteration of the loop body in `PinkNoiseGenerator.start`: update
`b0`..`b5` from the white draw, emit the sample scaled by 0.11, then set
`b6`.  Returns the new state and the emitted sample. -/
def kelletStep (s : KelletState) (white : ℚ) : KelletState × ℚ :=
  let b0 := 0.99886 * s.b0 + white * 0.0555179
  let b1 := 0.99332 * s.b1 + white * 0.0750759
  let b2 := 0.96900 * s.b2 + white * 0.1538520
  let b3 := 0.86650 * s.b3 + white * 0.3104856
  let b4 := 0.55000 * s.b4 + white * 0.5329522
  let b5 := -0.7616 * s.b5 - white * 0.0168980
  let out := (b0 + b1 + b2 + b3 + b4 + b5 + s.b6 + white * 0.5362) * 0.11
  let b6 := white * 0.115926
  (⟨b0, b1, b2, b3, b4, b5, b6⟩, out)

/-- The buffer-filling loop of `PinkNoiseGenerator.start`, as a left fold
over the sample indices, threading the filter state and accumulating the
output samples in order. -/
def generatePinkBuffer (whites : ℕ → ℚ) (bufferSize : ℕ) : List ℚ :=
  ((List.range bufferSize).foldl
    (fun acc i =>
      let r := kelletStep acc.1 (whites i)
      (r.1, acc.2 ++ [r.2]))
    (KelletState.init, [])).2

/-- The filter state after consuming the first `i` white draws, written as
an index recurrence (for comparison with the imperative loop). -/
def kelletStateAfter (whites : ℕ → ℚ) : ℕ → KelletState
  | 0 => KelletState.init
  | i + 1 => (kelletStep (kelletStateAfter whites i) (whites i)).1

/-- The `i`-th sample of the pink-noise stream, via the index recurrence. -/
def kelletSample (whites : ℕ → ℚ) (i : ℕ) : ℚ :=
  (kelletStep (kelletStateAfter whites i) (whites i)).2

/-! ## PinkNoiseGenerator (src/src/audio/PinkNoiseGenerator.ts) -/

/-- An `AudioBufferSourceNode` holding the generated noise buffer. -/
structure AudioBufferSourceNode where
  buffer : List ℚ
  loop : Bool
  deriving DecidableEq, Repr

/-- The PinkNoiseGenerator's node graph and stored parameters.  The
persistent nodes (`gainNode`, `pulseGain`, `panner`, `pulseDepthNode`,
`panDepthNode`) are created in the constructor; `node` (the buffer
source) and the two LFOs are created by `start` and destroyed by `stop`.
Each gain node is represented by its `gain` AudioParam and the panner by
its `pan` AudioParam; each LFO by its `frequency` AudioParam. -/
structure PinkNoiseGenerator where
  node : Option AudioBufferSourceNode
  gainNode : AudioParam
  pulseGain : AudioParam
  panner : AudioParam
  pulseDepthNode : AudioParam
  panDepthNode : AudioParam
  pulseOsc : Option AudioParam
  panOsc : Option AudioParam
  modulationFreq : ℚ
  pulseDepth : ℚ
  panDepth : ℚ
  deriving DecidableEq, Repr

/-- The constructor: master gain starts muted at 0, pulse gain at 1, pan
centred at 0; the depth gain nodes keep the Web Audio default gain of 1;
no sound-producing node exists yet; stored parameters default to
`modulationFreq = 4`, `pulseDepth = 0`, `panDepth = 0`. -/
def mkPinkNoiseGenerator : PinkNoiseGenerator where
  node := none
  gainNode := ⟨0, SetMode.direct⟩
  pulseGain := ⟨1, SetMode.direct⟩
  panner := ⟨0, SetMode.direct⟩
  pulseDepthNode := ⟨1, SetMode.direct⟩
  panDepthNode := ⟨1, SetMode.direct⟩
  pulseOsc := none
  panOsc := none
  modulationFreq := 4
  pulseDepth := 0
  panDepth := 0

/-- `setVolume`: smooth ramp of the master gain toward `volume` with time
constant 0.1; the value is passed through unmodified. -/
def PinkNoiseGenerator.setVolume (g : PinkNoiseGenerator) (volume : ℚ) :
    PinkNoiseGenerator :=
  { g with gainNode := g.gainNode.setTargetAtTime volume 0.1 }

/-- `updateLFOs`: retune the LFO frequencies (only if the oscillators
exist) and the pulse/pan gain targets, all smoothed with time constant
0.1.  Base pulse gain is `1 - depth/2`, LFO amplitude `depth/2`; pan LFO
amplitude equals `panDepth`. -/
def PinkNoiseGenerator.updateLFOs (g : PinkNoiseGenerator) : PinkNoiseGenerator :=
  { g with
    pulseOsc := g.pulseOsc.map (fun p => p.setTargetAtTime g.modulationFreq 0.1)
    panOsc := g.panOsc.map (fun p => p.setTargetAtTime g.modulationFreq 0.1)
    pulseGain := g.pulseGain.setTargetAtTime (1 - g.pulseDepth / 2) 0.1
    pulseDepthNode := g.pulseDepthNode.setTargetAtTime (g.pulseDepth / 2) 0.1
    panDepthNode := g.panDepthNode.setTargetAtTime g.panDepth 0.1 }

/-- `setModulation`: store the frequency unmodified, clamp both depths to
[0, 1] with `Math.max(0, Math.min(1, d))`, then apply via `updateLFOs`. -/
def PinkNoiseGenerator.setModulation (g : PinkNoiseGenerator)
    (freq pulseDepth panDepth : ℚ) : PinkNoiseGenerator :=
  PinkNoiseGenerator.updateLFOs
    { g with
      modulationFreq := freq
      pulseDepth := max 0 (min 1 pulseDepth)
      panDepth := max 0 (min 1 panDepth) }

/-- `startLFOs`: no-op if either LFO exists; otherwise create both
oscillators with frequency set directly to `modulationFreq`, then apply
the stored depths immediately via `updateLFOs`. -/
def PinkNoiseGenerator.startLFOs (g : PinkNoiseGenerator) : PinkNoiseGenerator :=
  if g.pulseOsc.isSome || g.panOsc.isSome then g
  else
    PinkNoiseGenerator.updateLFOs
      { g with
        pulseOsc := some ⟨g.modulationFreq, SetMode.direct⟩
        panOsc := some ⟨g.modulationFreq, SetMode.direct⟩ }

/-- `start(initialFreq?, initialPulseDepth?, initialPanDepth?)`: no-op if
the buffer source exists; otherwise overwrite the stored parameters with
any provided arguments, generate a looping 2-second buffer of
`2 * sampleRate` pink-noise samples, connect it, and start the LFOs. -/
def PinkNoiseGenerator.start (g : PinkNoiseGenerator) (sampleRate : ℕ)
    (whites : ℕ → ℚ)
    (initialFreq initialPulseDepth initialPanDepth : Option ℚ) :
    PinkNoiseGenerator :=
  if g.node.isSome then g
  else
    PinkNoiseGenerator.startLFOs
      { g with
        modulationFreq := initialFreq.getD g.modulationFreq
        pulseDepth := initialPulseDepth.getD g.pulseDepth
        panDepth := initialPanDepth.getD g.panDepth
        node := some ⟨generatePinkBuffer whites (2 * sampleRate), true⟩ }

/-- `stopLFOs`: stop, disconnect and null out whichever LFOs exist. -/
def PinkNoiseGenerator.stopLFOs (g : PinkNoiseGenerator) : PinkNoiseGenerator :=
  let g1 := if g.pulseOsc.isSome then { g with pulseOsc := none } else g
  if g1.panOsc.isSome then { g1 with panOsc := none } else g1

/-- `stop`: stop, disconnect and null out the buffer source if it exists,
then stop the LFOs.  Stored parameters and the persistent gain nodes are
untouched. -/
def PinkNoiseGenerator.stop (g : PinkNoiseGenerator) : PinkNoiseGenerator :=
  PinkNoiseGenerator.stopLFOs
    (if g.node.isSome then { g with node := none } else g)

/-! ## BinauralBeatGenerator (src/unnamed, BinauralBeatGenerator.ts) -/

/-- An `OscillatorNode` as used by the beat generator: its frequency
AudioParam, wave type, and (once connected) the ChannelMerger input index
it feeds (`connect(merger, 0, idx)`). -/
structure OscillatorNode where
  frequency : AudioParam
  waveType : String
  mergerInput : Option ℕ
  deriving DecidableEq, Repr

/-- The BinauralBeatGenerator: a persistent 2-input ChannelMerger feeding
a persistent master gain, plus the two oscillators created by `start` and
destroyed by `stop`, and the stored base/beat frequencies. -/
structure BinauralBeatGenerator where
  leftOsc : Option OscillatorNode
  rightOsc : Option OscillatorNode
  gainNode : AudioParam
  baseFreq : ℚ
  beatFreq : ℚ
  deriving DecidableEq, Repr

/-- The constructor: merger and gain allocated, gain muted at 0, stored
frequencies default to 0, no oscillators yet. -/
def mkBinauralBeatGenerator : BinauralBeatGenerator where
  leftOsc := none
  rightOsc := none
  gainNode := ⟨0, SetMode.direct⟩
  baseFreq := 0
  beatFreq := 0

/-- `setVolume`: smooth ramp of the master gain toward `volume` with time
constant 0.1; the value is passed through unmodified. -/
def BinauralBeatGenerator.setVolume (g : BinauralBeatGenerator) (volume : ℚ) :
    BinauralBeatGenerator :=
  { g with gainNode := g.gainNode.setTargetAtTime volume 0.1 }

/-- `updateOscillators`: if both oscillators exist, smoothly retune the
left one to `baseFreq` and the right one to `baseFreq + beatFreq` with
time constant 0.1; otherwise do nothing. -/
def BinauralBeatGenerator.updateOscillators (g : BinauralBeatGenerator) :
    BinauralBeatGenerator :=
  if g.leftOsc.isSome && g.rightOsc.isSome then
    { g with
      leftOsc := g.leftOsc.map
        (fun o => { o with frequency := o.frequency.setTargetAtTime g.baseFreq 0.1 })
      rightOsc := g.rightOsc.map
        (fun o =>
          { o with
            frequency := o.frequency.setTargetAtTime (g.baseFreq + g.beatFreq) 0.1 }) }
  else g

/-- `setFrequencies(base, beat)`: store both values unmodified, then
retune the live oscillators. -/
def BinauralBeatGenerator.setFrequencies (g : BinauralBeatGenerator)
    (base beat : ℚ) : BinauralBeatGenerator :=
  BinauralBeatGenerator.updateOscillators
    { g with baseFreq := base, beatFreq := beat }

/-- `start(initialBaseFreq?, initialBeatFreq?)`: no-op if either
oscillator exists; otherwise overwrite the stored frequencies with any
provided arguments and create two sine oscillators with frequency set
directly (no smoothing), the left connected to merger input 0 and the
right to merger input 1. -/
def BinauralBeatGenerator.start (g : BinauralBeatGenerator)
    (initialBaseFreq initialBeatFreq : Option ℚ) : BinauralBeatGenerator :=
  if g.leftOsc.isSome || g.rightOsc.isSome then g
  else
    let base := initialBaseFreq.getD g.baseFreq
    let beat := initialBeatFreq.getD g.beatFreq
    { g with
      baseFreq := base
      beatFreq := beat
      leftOsc := some ⟨⟨base, SetMode.direct⟩, "sine", some 0⟩
      rightOsc := some ⟨⟨base + beat, SetMode.direct⟩, "sine", some 1⟩ }

/-- `stop`: stop, disconnect and null out whichever oscillators exist.
Stored frequencies and the gain node are untouched. -/
def BinauralBeatGenerator.stop (g : BinauralBeatGenerator) :
    BinauralBeatGenerator :=
  let g1 := if g.leftOsc.isSome then { g with leftOsc := none } else g
  if g1.rightOsc.isSome then { g1 with rightOsc := none } else g1

/-! ## Mode/Mix policy (src/src/App.tsx, audio-logic effect) -/

/-- The reactive state the App's audio-logic effect reads: the playing
flag, master volume, the Classic-side (front) parameters, the flip flag
selecting the mode, and the Pulse-side (back, neural) parameters. -/
structure AppAudioState where
  isPlaying : Bool
  volume : ℚ
  noiseVolume : ℚ
  beatVolume : ℚ
  baseFreq : ℚ
  beatFreq : ℚ
  isFlipped : Bool
  neuralFreq : ℚ
  neuralPulseDepth : ℚ
  neuralPanDepth : ℚ
  neuralNoiseVolume : ℚ
  deriving DecidableEq, Repr

/-- The App's audio-logic effect.  Front (Classic, unflipped): noise gets
`setVolume(isPlaying ? noiseVolume*volume : 0)` then
`setModulation(0,0,0)`; beat gets
`setVolume(isPlaying ? beatVolume*volume : 0)` then
`setFrequencies(baseFreq, beatFreq)`.  Back (Pulse, flipped): noise gets
`setVolume(isPlaying ? neuralNoiseVolume*volume : 0)` then
`setModulation(neuralFreq, neuralPulseDepth, neuralPanDepth)`; beat gets
`setVolume(0)`.  A `none` generator models a null ref and is skipped. -/
def audioLogicEffect (s : AppAudioState)
    (noiseGen : Option PinkNoiseGenerator)
    (beatGen : Option BinauralBeatGenerator) :
    Option PinkNoiseGenerator × Option BinauralBeatGenerator :=
  if !s.isFlipped then
    (noiseGen.map (fun ng =>
        (ng.setVolume (if s.isPlaying then s.noiseVolume * s.volume else 0)).setModulation
          0 0 0),
     beatGen.map (fun bg =>
        (bg.setVolume (if s.isPlaying then s.beatVolume * s.volume else 0)).setFrequencies
          s.baseFreq s.beatFreq))
  else
    (noiseGen.map (fun ng =>
        (ng.setVolume
            (if s.isPlaying then s.neuralNoiseVolume * s.volume else 0)).setModulation
          s.neuralFreq s.neuralPulseDepth s.neuralPanDepth),
     beatGen.map (fun bg => bg.setVolume 0))

/-! ## Frequency-to-band-label mapping (BrainWaveDisplay) -/

/-- `getBrainWaveName`: fixed-threshold mapping from a beat frequency to
its descriptive band label. -/
def getBrainWaveName (freq : ℚ) : String :=
  if freq < 4 then "Delta (Deep Sleep)"
  else if freq < 8 then "Theta (Meditation/Drowsiness)"
  else if freq < 13 then "Alpha (Relaxation)"
  else if freq < 30 then "Beta (Active Thinking)"
  else "Gamma (High Focus)"

/-! ## Helper lemmas -/

/-- `updateLFOs` is a pure record update: the stored parameters, the
buffer source and the master gain are untouched. -/
theorem updateLFOs_preserves (g : PinkNoiseGenerator) :
    (g.updateLFOs).modulationFreq = g.modulationFreq ∧
    (g.updateLFOs).pulseDepth = g.pulseDepth ∧
    (g.updateLFOs).panDepth = g.panDepth ∧
    (g.updateLFOs).node = g.node ∧
    (g.updateLFOs).gainNode = g.gainNode :=
  ⟨rfl, rfl, rfl, rfl, rfl⟩

/-- `updateOscillators` never touches the stored frequencies or the
master gain. -/
theorem updateOscillators_preserves (g : BinauralBeatGenerator) :
    (g.updateOscillators).baseFreq = g.baseFreq ∧
    (g.updateOscillators).beatFreq = g.beatFreq ∧
    (g.updateOscillators).gainNode = g.gainNode := by
  unfold BinauralBeatGenerator.updateOscillators
  split <;> exact ⟨rfl, rfl, rfl⟩

/-- `PinkNoiseGenerator.stop` nulls out the buffer source and both LFOs
and changes nothing else. -/
theorem pinkNoise_stop_eq (g : PinkNoiseGenerator) :
    g.stop = { g with node := none, pulseOsc := none, panOsc := none } := by
  cases g with
  | mk node gainNode pulseGain panner pulseDepthNode panDepthNode
      pulseOsc panOsc modulationFreq pulseDepth panDepth =>
    unfold PinkNoiseGenerator.stop PinkNoiseGenerator.stopLFOs
    cases node <;> cases pulseOsc <;> cases panOsc <;> rfl

/-- `BinauralBeatGenerator.stop` nulls out both oscillators and changes
nothing else. -/
theorem binauralBeat_stop_eq (g : BinauralBeatGenerator) :
    g.stop = { g with leftOsc := none, rightOsc := none } := by
  cases g with
  | mk leftOsc rightOsc gainNode baseFreq beatFreq =>
    unfold BinauralBeatGenerator.stop
    cases leftOsc <;> cases rightOsc <;> rfl

/-! ## Claim theorems -/

/-- Claim C2: for every call `setModulation(freq, d, p)` on
PinkNoiseGenerator, with `d' = clamp(d,0,1)` and `p' = clamp(p,0,1)`,
the pulse gain stage's target becomes `1 - d'/2`, the pulse LFO
depth-gain's target becomes `d'/2`, and the pan depth-gain's target
becomes `p'`; in particular `setModulation(4, 0.8, 0.5)` yields pulse
base gain 0.6, pulse LFO swing amplitude 0.4, and pan LFO swing
amplitude 0.5. -/
theorem setModulation_applied_targets (g : PinkNoiseGenerator) (freq d p : ℚ) :
    ((g.setModulation freq d p).pulseGain =
        ⟨1 - max 0 (min 1 d) / 2, SetMode.target 0.1⟩ ∧
      (g.setModulation freq d p).pulseDepthNode =
        ⟨max 0 (min 1 d) / 2, SetMode.target 0.1⟩ ∧
      (g.setModulation freq d p).panDepthNode =
        ⟨max 0 (min 1 p), SetMode.target 0.1⟩) ∧
    ((g.setModulation 4 0.8 0.5).pulseGain.value = 0.6 ∧
      (g.setModulation 4 0.8 0.5).pulseDepthNode.value = 0.4 ∧
      (g.setModulation 4 0.8 0.5).panDepthNode.value = 0.5) := by
  refine ⟨⟨rfl, rfl, rfl⟩, ?_, ?_, ?_⟩ <;>
    norm_num [PinkNoiseGenerator.setModulation, PinkNoiseGenerator.updateLFOs,
      AudioParam.setTargetAtTime]

/-- Claim C3: for every `pulseDepth` and `panDepth` input to
`setModulation`, including values below 0 or above 1, the stored
effective depth equals `clamp(depth, 0, 1)`; out-of-range depths are
silently clamped (the setter is a total function), never rejected. -/
theorem setModulation_clamps_depths (g : PinkNoiseGenerator) (freq d p : ℚ) :
    (g.setModulation freq d p).pulseDepth = max 0 (min 1 d) ∧
    (g.setModulation freq d p).panDepth = max 0 (min 1 p) ∧
    (g.setModulation freq d p).pulseDepthNode.value = max 0 (min 1 d) / 2 ∧
    (g.setModulation freq d p).panDepthNode.value = max 0 (min 1 p) :=
  ⟨rfl, rfl, rfl, rfl⟩

/-- Claim C9: the frequency-to-band-label mapping is pure with fixed
thresholds: below 4 Delta, below 8 Theta, below 13 Alpha, below 30 Beta,
otherwise Gamma; with the claimed boundary instances. -/
theorem brainwave_thresholds (f : ℚ) :
    (f < 4 → getBrainWaveName f = "Delta (Deep Sleep)") ∧
    (4 ≤ f → f < 8 → getBrainWaveName f = "Theta (Meditation/Drowsiness)") ∧
    (8 ≤ f → f < 13 → getBrainWaveName f = "Alpha (Relaxation)") ∧
    (13 ≤ f → f < 30 → getBrainWaveName f = "Beta (Active Thinking)") ∧
    (30 ≤ f → getBrainWaveName f = "Gamma (High Focus)") ∧
    (getBrainWaveName 3.9 = "Delta (Deep Sleep)" ∧
      getBrainWaveName 4 = "Theta (Meditation/Drowsiness)" ∧
      getBrainWaveName 7.9 = "Theta (Meditation/Drowsiness)" ∧
      getBrainWaveName 8 = "Alpha (Relaxation)" ∧
      getBrainWaveName 29.9 = "Beta (Active Thinking)" ∧
      getBrainWaveName 30 = "Gamma (High Focus)") := by
  unfold getBrainWaveName
  refine ⟨fun h => by rw [if_pos h],
    fun h1 h2 => by rw [if_neg (by linarith), if_pos h2],
    fun h1 h2 => by rw [if_neg (by linarith), if_neg (by linarith), if_pos h2],
    fun h1 h2 => by
      rw [if_neg (by linarith), if_neg (by linarith), if_neg (by linarith),
        if_pos h2],
    fun h => by
      rw [if_neg (by linarith), if_neg (by linarith), if_neg (by linarith),
        if_neg (by linarith)],
    ?_, ?_, ?_, ?_, ?_, ?_⟩ <;> norm_num

/-- Witness for C9 at the boundary input 4. -/
theorem brainwave_thresholds_witness :
    getBrainWaveName 4 = "Theta (Meditation/Drowsiness)" :=
  (brainwave_thresholds 4).2.1 (by norm_num) (by norm_num)

/-- Claim C10: `setVolume(v)` on either generator passes `v` through
unmodified as the smoothing target of the master gain (no clamping, no
rejection), and likewise `setModulation` stores the modulation frequency
and `setFrequencies` stores the base/beat frequencies unmodified. -/
theorem setters_pass_values_through (g : PinkNoiseGenerator)
    (h : BinauralBeatGenerator) (v f d p base beat : ℚ) :
    (g.setVolume v).gainNode = ⟨v, SetMode.target 0.1⟩ ∧
    (h.setVolume v).gainNode = ⟨v, SetMode.target 0.1⟩ ∧
    (g.setModulation f d p).modulationFreq = f ∧
    (h.setFrequencies base beat).baseFreq = base ∧
    (h.setFrequencies base beat).beatFreq = beat := by
  refine ⟨rfl, rfl, rfl, ?_, ?_⟩
  · exact (updateOscillators_preserves { h with baseFreq := base, beatFreq := beat }).1
  · exact (updateOscillators_preserves { h with baseFreq := base, beatFreq := beat }).2.1

/-- Claim C4: whenever the mode/mix policy recomputes in Classic (front,
unflipped) mode, it applies `setModulation(0, 0, 0)` to the noise
generator, so the applied noise modulation parameters are (0, 0, 0) for
every combination of `isPlaying`, master volume and stored Pulse-mode
(neural) parameter values: stored depths and modulation frequency become
0 and the applied targets are pulse base gain 1, pulse LFO amplitude 0,
pan LFO amplitude 0. -/
theorem classic_mode_forces_zero_modulation (s : AppAudioState)
    (ng : PinkNoiseGenerator) (bg : Option BinauralBeatGenerator)
    (hmode : s.isFlipped = false) :
    (audioLogicEffect s (some ng) bg).1 =
      some ((ng.setVolume
          (if s.isPlaying then s.noiseVolume * s.volume else 0)).setModulation 0 0 0) ∧
    ((ng.setVolume
        (if s.isPlaying then s.noiseVolume * s.volume else 0)).setModulation
          0 0 0).modulationFreq = 0 ∧
    ((ng.setVolume
        (if s.isPlaying then s.noiseVolume * s.volume else 0)).setModulation
          0 0 0).pulseDepth = 0 ∧
    ((ng.setVolume
        (if s.isPlaying then s.noiseVolume * s.volume else 0)).setModulation
          0 0 0).panDepth = 0 ∧
    ((ng.setVolume
        (if s.isPlaying then s.noiseVolume * s.volume else 0)).setModulation
          0 0 0).pulseGain = ⟨1, SetMode.target 0.1⟩ ∧
    ((ng.setVolume
        (if s.isPlaying then s.noiseVolume * s.volume else 0)).setModulation
          0 0 0).pulseDepthNode = ⟨0, SetMode.target 0.1⟩ ∧
    ((ng.setVolume
        (if s.isPlaying then s.noiseVolume * s.volume else 0)).setModulation
          0 0 0).panDepthNode = ⟨0, SetMode.target 0.1⟩ := by
  refine ⟨?_, ?_, ?_, ?_, ?_, ?_, ?_⟩ <;>
    simp [audioLogicEffect, hmode, PinkNoiseGenerator.setModulation,
      PinkNoiseGenerator.updateLFOs, AudioParam.setTargetAtTime]

/-- A concrete Classic-mode app state: playing, all volumes 1, carrier
200 Hz, beat 10 Hz, unflipped, with nonzero stored neural parameters. -/
def sClassic : AppAudioState :=
  ⟨true, 1, 1, 1, 200, 10, false, 6, 0.7, 0.9, 1⟩

/-- Witness for C4 at `sClassic` and a freshly constructed generator. -/
theorem classic_mode_witness :
    sClassic.isFlipped = false ∧
    ((audioLogicEffect sClassic (some mkPinkNoiseGenerator) none).1 =
        some ((mkPinkNoiseGenerator.setVolume
            (if sClassic.isPlaying then sClassic.noiseVolume * sClassic.volume
             else 0)).setModulation 0 0 0) ∧
      ((mkPinkNoiseGenerator.setVolume
          (if sClassic.isPlaying then sClassic.noiseVolume * sClassic.volume
           else 0)).setModulation 0 0 0).modulationFreq = 0 ∧
      ((mkPinkNoiseGenerator.setVolume
          (if sClassic.isPlaying then sClassic.noiseVolume * sClassic.volume
           else 0)).setModulation 0 0 0).pulseDepth = 0 ∧
      ((mkPinkNoiseGenerator.setVolume
          (if sClassic.isPlaying then sClassic.noiseVolume * sClassic.volume
           else 0)).setModulation 0 0 0).panDepth = 0 ∧
      ((mkPinkNoiseGenerator.setVolume
          (if sClassic.isPlaying then sClassic.noiseVolume * sClassic.volume
           else 0)).setModulation 0 0 0).pulseGain = ⟨1, SetMode.target 0.1⟩ ∧
      ((mkPinkNoiseGenerator.setVolume
          (if sClassic.isPlaying then sClassic.noiseVolume * sClassic.volume
           else 0)).setModulation 0 0 0).pulseDepthNode = ⟨0, SetMode.target 0.1⟩ ∧
      ((mkPinkNoiseGenerator.setVolume
          (if sClassic.isPlaying then sClassic.noiseVolume * sClassic.volume
           else 0)).setModulation 0 0 0).panDepthNode = ⟨0, SetMode.target 0.1⟩) :=
  ⟨rfl, classic_mode_forces_zero_modulation sClassic mkPinkNoiseGenerator none rfl⟩

/-- Claim C5: whenever the mode/mix policy recomputes in Pulse (back,
flipped) mode, it applies `setVolume(0)` to the beat generator, so the
applied beat volume target is 0 for every stored beat-volume value,
master volume and `isPlaying` value. -/
theorem pulse_mode_mutes_beat_generator (s : AppAudioState)
    (bg : BinauralBeatGenerator) (ng : Option PinkNoiseGenerator)
    (hmode : s.isFlipped = true) :
    (audioLogicEffect s ng (some bg)).2 = some (bg.setVolume 0) ∧
    (bg.setVolume 0).gainNode = ⟨0, SetMode.target 0.1⟩ := by
  exact ⟨by simp [audioLogicEffect, hmode], rfl⟩

/-- A concrete Pulse-mode app state: playing, all volumes 1, nonzero
stored beat volume, flipped. -/
def sPulse : AppAudioState :=
  ⟨true, 1, 1, 0.8, 200, 10, true, 6, 0.7, 0.9, 1⟩

/-- Witness for C5 at `sPulse` and a freshly constructed beat generator. -/
theorem pulse_mode_witness :
    sPulse.isFlipped = true ∧
    ((audioLogicEffect sPulse none (some mkBinauralBeatGenerator)).2 =
        some (mkBinauralBeatGenerator.setVolume 0) ∧
      (mkBinauralBeatGenerator.setVolume 0).gainNode = ⟨0, SetMode.target 0.1⟩) :=
  ⟨rfl, pulse_mode_mutes_beat_generator sPulse mkBinauralBeatGenerator none rfl⟩

/-- Claim C1: `start(base, beat)` on a non-running BinauralBeatGenerator
drives the left oscillator at exactly `base` and the right at exactly
`base + beat`, both set directly (no smoothing), with the left routed to
merger input 0 and the right to input 1; `setFrequencies(base, beat)` on
a running pair smoothly retunes them to the same two values; in
particular for `baseFreq = 60`, `beatFreq = 4` the left-channel tone is
60 Hz and the right-channel tone is 64 Hz, exactly. -/
theorem binaural_frequency_contract (g r : BinauralBeatGenerator)
    (base beat : ℚ)
    (hL : g.leftOsc = none) (hR : g.rightOsc = none)
    (hrunL : r.leftOsc.isSome) (hrunR : r.rightOsc.isSome) :
    ((g.start (some base) (some beat)).leftOsc =
        some ⟨⟨base, SetMode.direct⟩, "sine", some 0⟩ ∧
      (g.start (some base) (some beat)).rightOsc =
        some ⟨⟨base + beat, SetMode.direct⟩, "sine", some 1⟩) ∧
    ((r.setFrequencies base beat).leftOsc =
        r.leftOsc.map
          (fun o => { o with frequency := ⟨base, SetMode.target 0.1⟩ }) ∧
      (r.setFrequencies base beat).rightOsc =
        r.rightOsc.map
          (fun o => { o with frequency := ⟨base + beat, SetMode.target 0.1⟩ })) ∧
    ((g.start (some 60) (some 4)).leftOsc.map (fun o => o.frequency.value) =
        some 60 ∧
      (g.start (some 60) (some 4)).rightOsc.map (fun o => o.frequency.value) =
        some 64) := by
  refine ⟨⟨?_, ?_⟩, ⟨?_, ?_⟩, ?_, ?_⟩ <;>
    simp [BinauralBeatGenerator.start, BinauralBeatGenerator.setFrequencies,
      BinauralBeatGenerator.updateOscillators, AudioParam.setTargetAtTime,
      hL, hR, hrunL, hrunR]
  norm_num

/-- A beat generator running at base 60 Hz, beat 4 Hz. -/
def beatRunning : BinauralBeatGenerator :=
  mkBinauralBeatGenerator.start (some 60) (some 4)

/-- Witness for C1 at a fresh generator and the running pair
`beatRunning`, with base 60 and beat 4. -/
theorem binaural_frequency_contract_witness :
    mkBinauralBeatGenerator.leftOsc = none ∧
    mkBinauralBeatGenerator.rightOsc = none ∧
    beatRunning.leftOsc.isSome ∧
    beatRunning.rightOsc.isSome ∧
    (((mkBinauralBeatGenerator.start (some 60) (some 4)).leftOsc =
        some ⟨⟨60, SetMode.direct⟩, "sine", some 0⟩ ∧
      (mkBinauralBeatGenerator.start (some 60) (some 4)).rightOsc =
        some ⟨⟨60 + 4, SetMode.direct⟩, "sine", some 1⟩) ∧
    ((beatRunning.setFrequencies 60 4).leftOsc =
        beatRunning.leftOsc.map
          (fun o => { o with frequency := ⟨60, SetMode.target 0.1⟩ }) ∧
      (beatRunning.setFrequencies 60 4).rightOsc =
        beatRunning.rightOsc.map
          (fun o => { o with frequency := ⟨(60 : ℚ) + 4, SetMode.target 0.1⟩ })) ∧
    ((mkBinauralBeatGenerator.start (some 60) (some 4)).leftOsc.map
        (fun o => o.frequency.value) = some 60 ∧
      (mkBinauralBeatGenerator.start (some 60) (some 4)).rightOsc.map
        (fun o => o.frequency.value) = some 64)) :=
  ⟨rfl, rfl, rfl, rfl,
    binaural_frequency_contract mkBinauralBeatGenerator beatRunning 60 4
      rfl rfl rfl rfl⟩

/-- Claim C8: for both generators, `start()` while already Running and
`stop()` while already Uninitialized are no-ops, not errors: the whole
state (nodes and stored parameters) is unchanged and arguments passed to
a redundant `start()` are discarded. -/
theorem redundant_lifecycle_noops (g : PinkNoiseGenerator)
    (h : BinauralBeatGenerator) (g0 : PinkNoiseGenerator)
    (h0 : BinauralBeatGenerator) (sr : ℕ) (whites : ℕ → ℚ)
    (f d p b bt : Option ℚ)
    (hg : g.node.isSome)
    (hh : h.leftOsc.isSome ∨ h.rightOsc.isSome)
    (hg0 : g0.node = none ∧ g0.pulseOsc = none ∧ g0.panOsc = none)
    (hh0 : h0.leftOsc = none ∧ h0.rightOsc = none) :
    g.start sr whites f d p = g ∧ h.start b bt = h ∧
    g0.stop = g0 ∧ h0.stop = h0 := by
  obtain ⟨hgn, hgp, hgq⟩ := hg0
  obtain ⟨hhl, hhr⟩ := hh0
  refine ⟨?_, ?_, ?_, ?_⟩
  · unfold PinkNoiseGenerator.start
    rw [if_pos hg]
  · unfold BinauralBeatGenerator.start
    rcases hh with hh | hh <;> simp [hh]
  · rw [pinkNoise_stop_eq]
    cases g0
    simp_all
  · rw [binauralBeat_stop_eq]
    cases h0
    simp_all

/-- A constant white-noise draw sequence used in witnesses. -/
def constWhites : ℕ → ℚ := fun _ => 0.5

/-- A noise generator running at sample rate 1 (buffer of 2 samples). -/
def noiseRunning : PinkNoiseGenerator :=
  mkPinkNoiseGenerator.start 1 constWhites none none none

/-- Witness for C8: a redundant `start` on running generators and a
redundant `stop` on fresh ones all leave the state unchanged. -/
theorem redundant_lifecycle_noops_witness :
    noiseRunning.node.isSome ∧
    (beatRunning.leftOsc.isSome ∨ beatRunning.rightOsc.isSome) ∧
    (mkPinkNoiseGenerator.node = none ∧ mkPinkNoiseGenerator.pulseOsc = none ∧
      mkPinkNoiseGenerator.panOsc = none) ∧
    (mkBinauralBeatGenerator.leftOsc = none ∧
      mkBinauralBeatGenerator.rightOsc = none) ∧
    (noiseRunning.start 2 constWhites (some 9) (some 2) (some (-1)) =
        noiseRunning ∧
      beatRunning.start (some 100) (some 7) = beatRunning ∧
      mkPinkNoiseGenerator.stop = mkPinkNoiseGenerator ∧
      mkBinauralBeatGenerator.stop = mkBinauralBeatGenerator) :=
  ⟨rfl, Or.inl rfl, ⟨rfl, rfl, rfl⟩, ⟨rfl, rfl⟩,
    redundant_lifecycle_noops noiseRunning beatRunning mkPinkNoiseGenerator
      mkBinauralBeatGenerator 2 constWhites (some 9) (some 2) (some (-1))
      (some 100) (some 7) rfl (Or.inl rfl) ⟨rfl, rfl, rfl⟩ ⟨rfl, rfl⟩⟩

/-- Claim C6: for either generator in the Running state, `stop()`
followed immediately by an argument-less `start()` reproduces the same
effective parameter set: the noise generator's stored `modulationFreq`,
`pulseDepth`, `panDepth` and the beat generator's stored `baseFreq`,
`beatFreq` survive `stop()` and are reapplied by the next `start()`,
and the master gain held on the persistent node is untouched by both. -/
theorem stop_start_roundtrip (g : PinkNoiseGenerator)
    (h : BinauralBeatGenerator) (sr : ℕ) (whites : ℕ → ℚ)
    (_hg : g.node.isSome)
    (_hh : h.leftOsc.isSome ∧ h.rightOsc.isSome) :
    (g.stop.modulationFreq = g.modulationFreq ∧
      g.stop.pulseDepth = g.pulseDepth ∧
      g.stop.panDepth = g.panDepth ∧
      g.stop.gainNode = g.gainNode) ∧
    (h.stop.baseFreq = h.baseFreq ∧ h.stop.beatFreq = h.beatFreq ∧
      h.stop.gainNode = h.gainNode) ∧
    ((g.stop.start sr whites none none none).modulationFreq =
        g.modulationFreq ∧
      (g.stop.start sr whites none none none).pulseDepth = g.pulseDepth ∧
      (g.stop.start sr whites none none none).panDepth = g.panDepth ∧
      (g.stop.start sr whites none none none).gainNode = g.gainNode ∧
      (g.stop.start sr whites none none none).pulseOsc =
        some ⟨g.modulationFreq, SetMode.target 0.1⟩ ∧
      (g.stop.start sr whites none none none).panOsc =
        some ⟨g.modulationFreq, SetMode.target 0.1⟩ ∧
      (g.stop.start sr whites none none none).pulseGain.value =
        1 - g.pulseDepth / 2 ∧
      (g.stop.start sr whites none none none).pulseDepthNode.value =
        g.pulseDepth / 2 ∧
      (g.stop.start sr whites none none none).panDepthNode.value =
        g.panDepth) ∧
    ((h.stop.start none none).baseFreq = h.baseFreq ∧
      (h.stop.start none none).beatFreq = h.beatFreq ∧
      (h.stop.start none none).gainNode = h.gainNode ∧
      (h.stop.start none none).leftOsc =
        some ⟨⟨h.baseFreq, SetMode.direct⟩, "sine", some 0⟩ ∧
      (h.stop.start none none).rightOsc =
        some ⟨⟨h.baseFreq + h.beatFreq, SetMode.direct⟩, "sine", some 1⟩) := by
  rw [pinkNoise_stop_eq, binauralBeat_stop_eq]
  refine ⟨⟨rfl, rfl, rfl, rfl⟩, ⟨rfl, rfl, rfl⟩, ?_, ?_⟩ <;>
    simp [PinkNoiseGenerator.start, PinkNoiseGenerator.startLFOs,
      PinkNoiseGenerator.updateLFOs, BinauralBeatGenerator.start,
      AudioParam.setTargetAtTime]

/-- Witness for C6 at the running generators `noiseRunning` (sample rate
1, constant white draws) and `beatRunning` (base 60 Hz, beat 4 Hz). -/
theorem stop_start_roundtrip_witness :
    noiseRunning.node.isSome ∧
    (beatRunning.leftOsc.isSome ∧ beatRunning.rightOsc.isSome) ∧
    ((noiseRunning.stop.modulationFreq = noiseRunning.modulationFreq ∧
        noiseRunning.stop.pulseDepth = noiseRunning.pulseDepth ∧
        noiseRunning.stop.panDepth = noiseRunning.panDepth ∧
        noiseRunning.stop.gainNode = noiseRunning.gainNode) ∧
      (beatRunning.stop.baseFreq = beatRunning.baseFreq ∧
        beatRunning.stop.beatFreq = beatRunning.beatFreq ∧
        beatRunning.stop.gainNode = beatRunning.gainNode) ∧
      ((noiseRunning.stop.start 1 constWhites none none none).modulationFreq =
          noiseRunning.modulationFreq ∧
        (noiseRunning.stop.start 1 constWhites none none none).pulseDepth =
          noiseRunning.pulseDepth ∧
        (noiseRunning.stop.start 1 constWhites none none none).panDepth =
          noiseRunning.panDepth ∧
        (noiseRunning.stop.start 1 constWhites none none none).gainNode =
          noiseRunning.gainNode ∧
        (noiseRunning.stop.start 1 constWhites none none none).pulseOsc =
          some ⟨noiseRunning.modulationFreq, SetMode.target 0.1⟩ ∧
        (noiseRunning.stop.start 1 constWhites none none none).panOsc =
          some ⟨noiseRunning.modulationFreq, SetMode.target 0.1⟩ ∧
        (noiseRunning.stop.start 1 constWhites none none none).pulseGain.value =
          1 - noiseRunning.pulseDepth / 2 ∧
        (noiseRunning.stop.start 1 constWhites none none
              none).pulseDepthNode.value =
          noiseRunning.pulseDepth / 2 ∧
        (noiseRunning.stop.start 1 constWhites none none
              none).panDepthNode.value =
          noiseRunning.panDepth) ∧
      ((beatRunning.stop.start none none).baseFreq = beatRunning.baseFreq ∧
        (beatRunning.stop.start none none).beatFreq = beatRunning.beatFreq ∧
        (beatRunning.stop.start none none).gainNode = beatRunning.gainNode ∧
        (beatRunning.stop.start none none).leftOsc =
          some ⟨⟨beatRunning.baseFreq, SetMode.direct⟩, "sine", some 0⟩ ∧
        (beatRunning.stop.start none none).rightOsc =
          some ⟨⟨beatRunning.baseFreq + beatRunning.beatFreq, SetMode.direct⟩,
            "sine", some 1⟩)) :=
  ⟨rfl, ⟨rfl, rfl⟩,
    stop_start_roundtrip noiseRunning beatRunning 1 constWhites rfl ⟨rfl, rfl⟩⟩

/-- Loop invariant for the buffer-filling fold: after `n` iterations the
accumulator holds the filter state after `n` draws and the first `n`
samples in order. -/
theorem generatePinkBuffer_fold_inv (whites : ℕ → ℚ) (n : ℕ) :
    (List.range n).foldl
      (fun acc i =>
        let r := kelletStep acc.1 (whites i)
        (r.1, acc.2 ++ [r.2]))
      (KelletState.init, []) =
    (kelletStateAfter whites n, (List.range n).map (kelletSample whites)) := by
  induction n with
  | zero => rfl
  | succ n ih =>
    rw [List.range_succ, List.foldl_append, ih, List.map_append]
    rfl

/-- The buffer-filling loop agrees with the index recurrence. -/
theorem generatePinkBuffer_eq_map (whites : ℕ → ℚ) (n : ℕ) :
    generatePinkBuffer whites n = (List.range n).map (kelletSample whites) := by
  unfold generatePinkBuffer
  rw [generatePinkBuffer_fold_inv]

/-- Claim C7: every sample of the noise buffer built by
`PinkNoiseGenerator.start` satisfies Paul Kellet's recurrence.  Starting
from `b0 = ... = b6 = 0`, the state after draw `i` updates by
`b0 = 0.99886*b0 + w*0.0555179`, ..., `b5 = -0.7616*b5 - w*0.0168980`,
`b6 = w*0.115926`, where `b6` is written only after the sample; the
`i`-th sample equals `(b0+b1+b2+b3+b4+b5+b6 + w*0.5362) * 0.11` with
`b0..b5` the updated values and `b6` the previous one; the buffer holds
`2 * sampleRate` samples and is set to loop. -/
theorem pink_buffer_kellet_recurrence (g : PinkNoiseGenerator) (sr : ℕ)
    (whites : ℕ → ℚ) (f d p : Option ℚ) (hg : g.node = none) :
    (g.start sr whites f d p).node =
      some ⟨generatePinkBuffer whites (2 * sr), true⟩ ∧
    (generatePinkBuffer whites (2 * sr)).length = 2 * sr ∧
    (∀ i, i < 2 * sr →
      (generatePinkBuffer whites (2 * sr))[i]? =
        some (kelletSample whites i)) ∧
    kelletStateAfter whites 0 = ⟨0, 0, 0, 0, 0, 0, 0⟩ ∧
    (∀ i,
      (kelletStateAfter whites (i + 1)).b0 =
        0.99886 * (kelletStateAfter whites i).b0 + whites i * 0.0555179 ∧
      (kelletStateAfter whites (i + 1)).b1 =
        0.99332 * (kelletStateAfter whites i).b1 + whites i * 0.0750759 ∧
      (kelletStateAfter whites (i + 1)).b2 =
        0.96900 * (kelletStateAfter whites i).b2 + whites i * 0.1538520 ∧
      (kelletStateAfter whites (i + 1)).b3 =
        0.86650 * (kelletStateAfter whites i).b3 + whites i * 0.3104856 ∧
      (kelletStateAfter whites (i + 1)).b4 =
        0.55000 * (kelletStateAfter whites i).b4 + whites i * 0.5329522 ∧
      (kelletStateAfter whites (i + 1)).b5 =
        -0.7616 * (kelletStateAfter whites i).b5 - whites i * 0.0168980 ∧
      (kelletStateAfter whites (i + 1)).b6 = whites i * 0.115926) ∧
    (∀ i, kelletSample whites i =
      ((kelletStateAfter whites (i + 1)).b0 +
          (kelletStateAfter whites (i + 1)).b1 +
          (kelletStateAfter whites (i + 1)).b2 +
          (kelletStateAfter whites (i + 1)).b3 +
          (kelletStateAfter whites (i + 1)).b4 +
          (kelletStateAfter whites (i + 1)).b5 +
          (kelletStateAfter whites i).b6 + whites i * 0.5362) * 0.11) := by
  refine ⟨?_, ?_, ?_, rfl, fun i => ⟨rfl, rfl, rfl, rfl, rfl, rfl, rfl⟩,
    fun i => rfl⟩
  · unfold PinkNoiseGenerator.start
    rw [hg]
    simp only [PinkNoiseGenerator.startLFOs, PinkNoiseGenerator.updateLFOs,
      Option.isSome_none, Bool.false_eq_true, if_false]
    split <;> rfl
  · rw [generatePinkBuffer_eq_map]
    simp
  · intro i hi
    rw [generatePinkBuffer_eq_map]
    rw [List.getElem?_map]
    simp [List.getElem?_range hi]

/-- Witness for C7 at a fresh generator, sample rate 1 and constant white
draws. -/
theorem pink_buffer_kellet_recurrence_witness :
    mkPinkNoiseGenerator.node = none ∧
    ((mkPinkNoiseGenerator.start 1 constWhites none none none).node =
        some ⟨generatePinkBuffer constWhites (2 * 1), true⟩ ∧
      (generatePinkBuffer constWhites (2 * 1)).length = 2 * 1 ∧
      (∀ i, i < 2 * 1 →
        (generatePinkBuffer constWhites (2 * 1))[i]? =
          some (kelletSample constWhites i)) ∧
      kelletStateAfter constWhites 0 = ⟨0, 0, 0, 0, 0, 0, 0⟩ ∧
      (∀ i,
        (kelletStateAfter constWhites (i + 1)).b0 =
          0.99886 * (kelletStateAfter constWhites i).b0 +
            constWhites i * 0.0555179 ∧
        (kelletStateAfter constWhites (i + 1)).b1 =
          0.99332 * (kelletStateAfter constWhites i).b1 +
            constWhites i * 0.0750759 ∧
        (kelletStateAfter constWhites (i + 1)).b2 =
          0.96900 * (kelletStateAfter constWhites i).b2 +
            constWhites i * 0.1538520 ∧
        (kelletStateAfter constWhites (i + 1)).b3 =
          0.86650 * (kelletStateAfter constWhites i).b3 +
            constWhites i * 0.3104856 ∧
        (kelletStateAfter constWhites (i + 1)).b4 =
          0.55000 * (kelletStateAfter constWhites i).b4 +
            constWhites i * 0.5329522 ∧
        (kelletStateAfter constWhites (i + 1)).b5 =
          -0.7616 * (kelletStateAfter constWhites i).b5 -
            constWhites i * 0.0168980 ∧
        (kelletStateAfter constWhites (i + 1)).b6 =
          constWhites i * 0.115926) ∧
      (∀ i, kelletSample constWhites i =
        ((kelletStateAfter constWhites (i + 1)).b0 +
            (kelletStateAfter constWhites (i + 1)).b1 +
            (kelletStateAfter constWhites (i + 1)).b2 +
            (kelletStateAfter constWhites (i + 1)).b3 +
            (kelletStateAfter constWhites (i + 1)).b4 +
            (kelletStateAfter constWhites (i + 1)).b5 +
            (kelletStateAfter constWhites i).b6 +
            constWhites i * 0.5362) * 0.11)) :=
  ⟨rfl, pink_buffer_kellet_recurrence mkPinkNoiseGenerator 1 constWhites
    none none none rfl⟩
